import Mathlib

/-!
Verification of the bearer-token gating and in-memory todo CRUD logic of
the cursor-authstack repository.

Two source files carry the logic under scrutiny:

- `plugins/mcp-auth/skills/mcp-auth-fastmcp-scalekit/assets/server.py`
  (provider-style variant): the scope gate `_require_scope` and the four
  tool operations `list_todos`, `create_todo`, `update_todo`,
  `delete_todo` acting on a process-wide dict `todos`.

- `plugins/mcp-auth/skills/mcp-auth-fastapi-fastmcp-scalekit/assets/main-minimal.py`
  (gateway-style variant): the HTTP middleware `auth_middleware` that
  gates every non-exempt request on a bearer token validated by an
  external service.

The Python dict `todos` (string key to record) is embedded as an
association list in insertion order, mirroring dict semantics: lookup
finds the binding, assignment replaces an existing binding in place or
appends a fresh one at the end, `pop` removes the binding, `len` is the
number of bindings, and `values()` lists the records in order. The
ambient validated access token (obtained in Python through
`get_access_token()`) is passed explicitly, and mutation of the global
dict becomes explicit state passing: each operation maps the token, its
arguments and the incoming dict to its returned payload and the outgoing
dict.
-/

namespace TodoServer

/-- The validated access token as the scope gate sees it: the code only
reads `token.scopes`, the granted scope strings. -/
structure AccessToken where
  scopes : List String
deriving DecidableEq, Repr

/-- One stored todo record. In the source each record is the dict literal
with exactly the keys `id`, `text` and `done`, built in `create_todo` and
mutated field-wise in `update_todo`. -/
structure Todo where
  id : String
  text : String
  done : Bool
deriving DecidableEq, Repr

/-- The process-wide `todos` dict, as an association list in insertion
order. -/
abbrev TodoMap := List (String × Todo)

/-- Dict lookup: `todos[k]` / `k in todos`, as an optional result. -/
def dictGet : TodoMap → String → Option Todo
  | [], _ => none
  | p :: rest, k => if p.1 = k then some p.2 else dictGet rest k

/-- Dict assignment `todos[k] = v`: replace the existing binding in
place, else append a fresh binding at the end (Python dict insertion
order). -/
def dictSet : TodoMap → String → Todo → TodoMap
  | [], k, v => [(k, v)]
  | p :: rest, k, v => if p.1 = k then (k, v) :: rest else p :: dictSet rest k v

/-- Dict removal `todos.pop(k)` (the removed value is read separately
with `dictGet`). -/
def dictPop : TodoMap → String → TodoMap
  | [], _ => []
  | p :: rest, k => if p.1 = k then rest else p :: dictPop rest k

/-- The scope gate of `server.py`. It reads the ambient validated token
and returns the error message when the required scope is not among the
granted scopes, and `none` (Python `None`) when it is. A total Lean
function: it has no side effects and cannot raise. -/
def _require_scope (scope : String) (token : AccessToken) : Option String :=
  if scope ∉ token.scopes then
    some ("Insufficient permissions: `" ++ scope ++ "` scope required.")
  else
    none

/-- The payload a tool call returns: the source returns a dict whose
single key tells the shape apart, namely `error`, `todos`, `todo` or
`deleted`. -/
inductive ToolResult where
  | error (msg : String)
  | todos (items : List Todo)
  | todo (item : Todo)
  | deleted (item : Todo)
deriving DecidableEq, Repr

/-- `list_todos` of `server.py`: gate on `todo:read`, then return all
stored records (`list(todos.values())`). -/
def list_todos (token : AccessToken) (todos : TodoMap) : ToolResult × TodoMap :=
  match _require_scope "todo:read" token with
  | some e => (.error e, todos)
  | none => (.todos (todos.map Prod.snd), todos)

/-- `create_todo` of `server.py`: gate on `todo:write`, assign
`todo_id = str(len(todos) + 1)`, store the fresh record and return it. -/
def create_todo (token : AccessToken) (text : String) (todos : TodoMap) :
    ToolResult × TodoMap :=
  match _require_scope "todo:write" token with
  | some e => (.error e, todos)
  | none =>
    let todo_id := toString (todos.length + 1)
    let t : Todo := ⟨todo_id, text, false⟩
    (.todo t, dictSet todos todo_id t)

/-- `update_todo` of `server.py`: gate on `todo:write`; unknown id gives
the `Todo not found` error; otherwise assign only the supplied fields
(`text` and `done` default to Python `None`) and return the stored
record. -/
def update_todo (token : AccessToken) (todo_id : String) (text : Option String)
    (done : Option Bool) (todos : TodoMap) : ToolResult × TodoMap :=
  match _require_scope "todo:write" token with
  | some e => (.error e, todos)
  | none =>
    match dictGet todos todo_id with
    | none => (.error "Todo not found", todos)
    | some old =>
      let t1 := match text with
        | some s => { old with text := s }
        | none => old
      let t2 := match done with
        | some b => { t1 with done := b }
        | none => t1
      (.todo t2, dictSet todos todo_id t2)

/-- `delete_todo` of `server.py`: gate on `todo:write`; unknown id gives
the `Todo not found` error; otherwise pop and return the removed
record. -/
def delete_todo (token : AccessToken) (todo_id : String) (todos : TodoMap) :
    ToolResult × TodoMap :=
  match _require_scope "todo:write" token with
  | some e => (.error e, todos)
  | none =>
    match dictGet todos todo_id with
    | none => (.error "Todo not found", todos)
    | some deleted => (.deleted deleted, dictPop todos todo_id)

/-- One tool invocation, as a relation between the `todos` dict before
and after the call: any of the four operations, with any token and any
arguments. -/
inductive Step : TodoMap → TodoMap → Prop where
  | lists (token : AccessToken) (s : TodoMap) : Step s (list_todos token s).2
  | creates (token : AccessToken) (text : String) (s : TodoMap) :
      Step s (create_todo token text s).2
  | updates (token : AccessToken) (todo_id : String) (text : Option String)
      (done : Option Bool) (s : TodoMap) :
      Step s (update_todo token todo_id text done s).2
  | deletes (token : AccessToken) (todo_id : String) (s : TodoMap) :
      Step s (delete_todo token todo_id s).2

/-- The dict states reachable from the initial empty dict
by any sequence of tool invocations. -/
inductive Reachable : TodoMap → Prop where
  | init : Reachable []
  | step {s s' : TodoMap} : Reachable s → Step s s' → Reachable s'

end TodoServer

/-!
Embedding of the gateway-style middleware of `main-minimal.py`. The
middleware is a function of the request (its path and `authorization`
header) and of the outcome of the one external call it may make,
`scalekit_client.validate_access_token(token, ...)`. That call is
modelled as an oracle `validator : String → ValidatorOutcome` mapping the
delegated token string to what the call does: return a boolean or raise.
The middleware either forwards the request to `call_next` or returns an
HTTP response of its own; `call_next` and the response transport are
external collaborators and stay opaque.

Python string operations are embedded faithfully on character lists:
`str.startswith` as a prefix test, `str.split(sep, 1)[0]` as the text
before the first occurrence of the separator (the whole string when the
separator does not occur), `str.strip()` as trimming whitespace at both
ends, and the falsiness test `not auth_header` on a present header as
equality with the empty string.
-/

namespace Gateway

/-- Configured listening port (`PORT`, default 3002). -/
def PORT : Nat := 3002

/-- `RESOURCE_METADATA_URL` of `main-minimal.py`. -/
def RESOURCE_METADATA_URL : String :=
  "http://localhost:" ++ toString PORT ++ "/.well-known/oauth-protected-resource"

/-- `WWW_HEADER`: the challenge header attached to every 401 the
middleware produces. -/
def WWW_HEADER : List (String × String) :=
  [("WWW-Authenticate",
    "Bearer realm=\"OAuth\", resource_metadata=\"" ++ RESOURCE_METADATA_URL ++ "\"")]

/-- An HTTP response as the middleware builds one: body, status code,
headers and media type. -/
structure HttpResponse where
  body : String
  status : Nat
  headers : List (String × String)
  mediaType : String
deriving DecidableEq, Repr

/-- Outcome of the external validation call on a given token string:
either it returns (a boolean) or it raises some exception. -/
inductive ValidatorOutcome where
  | ok (valid : Bool)
  | exn
deriving DecidableEq, Repr

/-- The part of the request the middleware reads: the URL path and the
`authorization` header (`none` when the header is absent). -/
structure MwRequest where
  path : String
  authHeader : Option String
deriving DecidableEq, Repr

/-- What the middleware does with a request: forward it unchanged to
`call_next`, or answer with a response of its own. -/
inductive MwOutcome where
  | forwarded
  | resp (r : HttpResponse)
deriving DecidableEq, Repr

/-- The 401 response for a missing or non-Bearer credential. -/
def missingBearerResponse : HttpResponse :=
  ⟨"\x7b\"error\":\"Missing Bearer token\"\x7d", 401, WWW_HEADER, "application/json"⟩

/-- The 401 response for a credential the validator rejects or fails
on. -/
def validationFailedResponse : HttpResponse :=
  ⟨"\x7b\"error\":\"Token validation failed\"\x7d", 401, WWW_HEADER, "application/json"⟩

/-- The exempt paths that bypass the auth gate. -/
def EXEMPT_PATHS : List String :=
  ["/health", "/.well-known/oauth-protected-resource"]

/-- The characters before the first occurrence of `sep` in the list (the
whole list when `sep` never occurs): `s.split(sep, 1)[0]` for a nonempty
separator. -/
def beforeFirst (sep : List Char) : List Char → List Char
  | [] => []
  | c :: cs => if sep.isPrefixOf (c :: cs) then [] else c :: beforeFirst sep cs

/-- Drop leading whitespace characters. -/
def dropLeadingWs : List Char → List Char
  | [] => []
  | c :: cs => if c.isWhitespace then dropLeadingWs cs else c :: cs

/-- Python `str.strip()`: remove whitespace at both ends. -/
def pyStrip (s : String) : String :=
  ⟨(dropLeadingWs (dropLeadingWs s.data).reverse).reverse⟩

/-- Python `str.startswith(pre)`. -/
def pyStartsWith (s pre : String) : Bool :=
  pre.data.isPrefixOf s.data

/-- Line 42 of `main-minimal.py`:
`token = auth_header.split("Bearer ", 1)[0].strip()` — the stripped text
BEFORE the first occurrence of the separator, because the code indexes
the split at 0. -/
def extractToken (auth_header : String) : String :=
  pyStrip ⟨beforeFirst "Bearer ".data auth_header.data⟩

/-- `auth_middleware` of `main-minimal.py`: exempt paths pass through;
a missing, empty or non-`Bearer ` `authorization` header gets the
missing-token 401; otherwise the extracted token is delegated to the
validator, a `True` outcome forwards the request, and a `False` outcome
or a raised exception gets the validation-failed 401 (the code raises
`ValueError` on a falsy result and catches every exception in the same
`except` arm). -/
def auth_middleware (validator : String → ValidatorOutcome) (request : MwRequest) :
    MwOutcome :=
  if request.path ∈ EXEMPT_PATHS then
    .forwarded
  else
    match request.authHeader with
    | none => .resp missingBearerResponse
    | some auth_header =>
      if auth_header = "" ∨ pyStartsWith auth_header "Bearer " = false then
        .resp missingBearerResponse
      else
        let token := extractToken auth_header
        match validator token with
        | .ok true => .forwarded
        | .ok false => .resp validationFailedResponse
        | .exn => .resp validationFailedResponse

end Gateway

namespace TodoServer

/-- When the required scope is missing, the gate returns the error
message. -/
theorem require_scope_eq_some {scope : String} {token : AccessToken}
    (h : scope ∉ token.scopes) :
    _require_scope scope token =
      some ("Insufficient permissions: `" ++ scope ++ "` scope required.") := by
  simp [_require_scope, h]

/-- When the required scope is granted, the gate returns `none`. -/
theorem require_scope_eq_none {scope : String} {token : AccessToken}
    (h : scope ∈ token.scopes) :
    _require_scope scope token = none := by
  simp [_require_scope, h]

/-- Assigning a key and reading it back yields the assigned value. -/
theorem dictGet_dictSet_self (m : TodoMap) (k : String) (v : Todo) :
    dictGet (dictSet m k v) k = some v := by
  induction m with
  | nil => simp [dictSet, dictGet]
  | cons p rest ih =>
    by_cases h : p.1 = k
    · simp [dictSet, dictGet, h]
    · simp [dictSet, dictGet, h, ih]

/-- Assigning a key leaves every other key unchanged. -/
theorem dictGet_dictSet_ne (m : TodoMap) (k k' : String) (v : Todo)
    (h : k' ≠ k) :
    dictGet (dictSet m k v) k' = dictGet m k' := by
  have h' : ¬ k = k' := fun hh => h hh.symm
  induction m with
  | nil => simp [dictSet, dictGet, h']
  | cons p rest ih =>
    by_cases hp : p.1 = k
    · simp [dictSet, dictGet, hp, h']
    · simp [dictSet, dictGet, hp, h, ih]

/-- Every binding of the dict after an assignment is the assigned binding
or one of the previous bindings. -/
theorem mem_dictSet {m : TodoMap} {k : String} {v : Todo} {p : String × Todo}
    (h : p ∈ dictSet m k v) : p = (k, v) ∨ p ∈ m := by
  induction m with
  | nil =>
    simp only [dictSet, List.mem_singleton] at h
    exact Or.inl h
  | cons q rest ih =>
    by_cases hq : q.1 = k
    · simp only [dictSet, if_pos hq, List.mem_cons] at h
      rcases h with h | h
      · exact Or.inl h
      · exact Or.inr (List.mem_cons_of_mem _ h)
    · simp only [dictSet, if_neg hq, List.mem_cons] at h
      rcases h with h | h
      · exact Or.inr (h ▸ List.mem_cons_self _ _)
      · rcases ih h with h' | h'
        · exact Or.inl h'
        · exact Or.inr (List.mem_cons_of_mem _ h')

/-- Every binding surviving a removal was a binding before it. -/
theorem mem_dictPop {m : TodoMap} {k : String} {p : String × Todo}
    (h : p ∈ dictPop m k) : p ∈ m := by
  induction m with
  | nil => simp [dictPop] at h
  | cons q rest ih =>
    by_cases hq : q.1 = k
    · simp only [dictPop, if_pos hq] at h
      exact List.mem_cons_of_mem _ h
    · simp only [dictPop, if_neg hq, List.mem_cons] at h
      rcases h with h | h
      · exact h ▸ List.mem_cons_self _ _
      · exact List.mem_cons_of_mem _ (ih h)

/-- A successful lookup exhibits the binding as a member of the dict. -/
theorem dictGet_mem {m : TodoMap} {k : String} {v : Todo}
    (h : dictGet m k = some v) : (k, v) ∈ m := by
  induction m with
  | nil => simp [dictGet] at h
  | cons p rest ih =>
    by_cases hp : p.1 = k
    · simp only [dictGet, if_pos hp, Option.some.injEq] at h
      subst hp
      subst h
      exact List.mem_cons_self _ _
    · simp only [dictGet, if_neg hp] at h
      exact List.mem_cons_of_mem _ (ih h)

/-- `list_todos` never changes the dict, whichever way the scope gate
goes. -/
theorem list_todos_state (token : AccessToken) (s : TodoMap) :
    (list_todos token s).2 = s := by
  cases h : _require_scope "todo:read" token <;> simp [list_todos, h]

/-- Behaviour of `create_todo` once the scope gate passes: a fresh
record keyed and identified by the decimal string of the old size plus
one. -/
theorem create_todo_eq (token : AccessToken) (text : String) (todos : TodoMap)
    (hg : _require_scope "todo:write" token = none) :
    create_todo token text todos =
      (ToolResult.todo ⟨toString (todos.length + 1), text, false⟩,
        dictSet todos (toString (todos.length + 1))
          ⟨toString (todos.length + 1), text, false⟩) := by
  simp [create_todo, hg]

/-- Behaviour of `update_todo` once the scope gate passes and the id is
found: exactly the supplied fields are replaced. -/
theorem update_todo_eq (token : AccessToken) (todo_id : String)
    (text : Option String) (done : Option Bool) (todos : TodoMap) (old : Todo)
    (hg : _require_scope "todo:write" token = none)
    (h : dictGet todos todo_id = some old) :
    update_todo token todo_id text done todos =
      (ToolResult.todo ⟨old.id, text.getD old.text, done.getD old.done⟩,
        dictSet todos todo_id ⟨old.id, text.getD old.text, done.getD old.done⟩) := by
  cases text <;> cases done <;> simp [update_todo, hg, h, Option.getD]

/-- Behaviour of `delete_todo` once the scope gate passes and the id is
found: the binding is removed and the removed record returned. -/
theorem delete_todo_eq (token : AccessToken) (todo_id : String) (todos : TodoMap)
    (old : Todo) (hg : _require_scope "todo:write" token = none)
    (h : dictGet todos todo_id = some old) :
    delete_todo token todo_id todos = (ToolResult.deleted old, dictPop todos todo_id) := by
  simp [delete_todo, hg, h]

/-- C3: for every scope string and every validated token, the scope gate
returns the insufficient-permissions message exactly when the scope is
not among the granted scopes, and returns none exactly when it is. The
embedding is a total pure Lean function, so it has no side effects and
cannot raise. -/
theorem C3_require_scope_spec (scope : String) (token : AccessToken) :
    (_require_scope scope token =
        some ("Insufficient permissions: `" ++ scope ++ "` scope required.") ↔
      scope ∉ token.scopes) ∧
    (_require_scope scope token = none ↔ scope ∈ token.scopes) := by
  by_cases h : scope ∈ token.scopes <;> simp [_require_scope, h]

/-- C4: with a token not granting todo:write, each of create, update and
delete returns the insufficient-permissions error and returns the dict
unchanged; with a token granting todo:read, list returns the stored
records with no error. -/
theorem C4_scope_gate_atomicity (token tokenR : AccessToken) (todos : TodoMap)
    (hw : "todo:write" ∉ token.scopes) (hr : "todo:read" ∈ tokenR.scopes)
    (text todo_id : String) (newText : Option String) (newDone : Option Bool) :
    create_todo token text todos =
      (.error "Insufficient permissions: `todo:write` scope required.", todos) ∧
    update_todo token todo_id newText newDone todos =
      (.error "Insufficient permissions: `todo:write` scope required.", todos) ∧
    delete_todo token todo_id todos =
      (.error "Insufficient permissions: `todo:write` scope required.", todos) ∧
    list_todos tokenR todos = (.todos (todos.map Prod.snd), todos) := by
  refine ⟨?_, ?_, ?_, ?_⟩ <;>
    simp [create_todo, update_todo, delete_todo, list_todos,
      require_scope_eq_some hw, require_scope_eq_none hr]

/-- Witness for C4: a token granting only todo:read is refused by
create_todo on the empty dict and accepted by list_todos. -/
theorem C4_scope_gate_atomicity_witness :
    ("todo:write" ∉ (AccessToken.mk ["todo:read"]).scopes) ∧
    ("todo:read" ∈ (AccessToken.mk ["todo:read"]).scopes) ∧
    create_todo ⟨["todo:read"]⟩ "buy milk" [] =
      (.error "Insufficient permissions: `todo:write` scope required.", []) ∧
    list_todos ⟨["todo:read"]⟩ [] = (.todos [], []) := by
  have h := C4_scope_gate_atomicity ⟨["todo:read"]⟩ ⟨["todo:read"]⟩ []
    (by decide) (by decide) "buy milk" "1" none none
  exact ⟨by decide, by decide, h.1, h.2.2.2⟩

/-- C5: the CRUD round-trip from the empty dict with a token granting
both scopes: create returns the record with id 1, text buy milk, done
false; updating done to true returns and stores the record with done
true; delete returns that same record; a subsequent list returns no
records at all, in particular none with id 1. The intermediate dict
states are spelled out, so each call is applied to the state the
previous call produced. -/
theorem C5_crud_round_trip :
    create_todo ⟨["todo:read", "todo:write"]⟩ "buy milk" [] =
      (ToolResult.todo ⟨"1", "buy milk", false⟩,
        [("1", ⟨"1", "buy milk", false⟩)]) ∧
    update_todo ⟨["todo:read", "todo:write"]⟩ "1" none (some true)
        [("1", ⟨"1", "buy milk", false⟩)] =
      (ToolResult.todo ⟨"1", "buy milk", true⟩,
        [("1", ⟨"1", "buy milk", true⟩)]) ∧
    delete_todo ⟨["todo:read", "todo:write"]⟩ "1"
        [("1", ⟨"1", "buy milk", true⟩)] =
      (ToolResult.deleted ⟨"1", "buy milk", true⟩, []) ∧
    list_todos ⟨["todo:read", "todo:write"]⟩ [] = (ToolResult.todos [], []) := by
  decide

/-- C2: the size-plus-one id scheme reuses ids after a deletion. From
the empty dict: create buy milk (id 1), create walk dog (id 2), delete
id 1; the dict then still stores the walk dog record under key 2, and
the next create assigns id 2 again to a different record — which
moreover silently overwrites the stored walk dog record. -/
theorem C2_id_reuse_after_delete :
    delete_todo ⟨["todo:write"]⟩ "1"
        (create_todo ⟨["todo:write"]⟩ "walk dog"
          (create_todo ⟨["todo:write"]⟩ "buy milk" []).2).2 =
      (ToolResult.deleted ⟨"1", "buy milk", false⟩,
        [("2", ⟨"2", "walk dog", false⟩)]) ∧
    dictGet [("2", ⟨"2", "walk dog", false⟩)] "2" = some ⟨"2", "walk dog", false⟩ ∧
    create_todo ⟨["todo:write"]⟩ "new item" [("2", ⟨"2", "walk dog", false⟩)] =
      (ToolResult.todo ⟨"2", "new item", false⟩,
        [("2", ⟨"2", "new item", false⟩)]) ∧
    (Todo.mk "2" "new item" false ≠ Todo.mk "2" "walk dog" false) := by
  decide

/-- C8: on any dict and any id without a binding — in particular an id
already deleted — update and delete with a todo:write token return the
Todo-not-found error and return the dict unchanged. -/
theorem C8_unknown_id_atomicity (token : AccessToken) (todos : TodoMap)
    (todo_id : String) (hs : "todo:write" ∈ token.scopes)
    (h : dictGet todos todo_id = none)
    (newText : Option String) (newDone : Option Bool) :
    update_todo token todo_id newText newDone todos =
      (.error "Todo not found", todos) ∧
    delete_todo token todo_id todos = (.error "Todo not found", todos) := by
  constructor <;> simp [update_todo, delete_todo, require_scope_eq_none hs, h]

/-- Witness for C8, as the double-delete scenario: deleting id 1 from
the dict created by one create succeeds and empties the dict, after
which id 1 has no binding and a second delete returns the Todo-not-found
error on the unchanged empty dict. -/
theorem C8_unknown_id_atomicity_witness :
    ("todo:write" ∈ (AccessToken.mk ["todo:write"]).scopes) ∧
    delete_todo ⟨["todo:write"]⟩ "1" [("1", ⟨"1", "buy milk", false⟩)] =
      (ToolResult.deleted ⟨"1", "buy milk", false⟩, []) ∧
    dictGet ([] : TodoMap) "1" = none ∧
    delete_todo ⟨["todo:write"]⟩ "1" [] = (.error "Todo not found", []) :=
  ⟨by decide, by decide, by decide,
    (C8_unknown_id_atomicity ⟨["todo:write"]⟩ [] "1" (by decide) (by decide)
      none none).2⟩

/-- C9: updating a stored todo with sufficient scope changes exactly the
supplied fields: an absent text leaves the stored text, a supplied text
replaces it, likewise for done; the id field is unchanged; every other
key of the dict keeps its binding; and the returned record is the record
now stored under the updated id. -/
theorem C9_partial_update_frame (token : AccessToken) (todos : TodoMap)
    (todo_id : String) (old : Todo) (newText : Option String) (newDone : Option Bool)
    (hs : "todo:write" ∈ token.scopes) (h : dictGet todos todo_id = some old) :
    ∃ updated : Todo,
      update_todo token todo_id newText newDone todos =
        (ToolResult.todo updated, dictSet todos todo_id updated) ∧
      updated.id = old.id ∧
      (newText = none → updated.text = old.text) ∧
      (∀ s, newText = some s → updated.text = s) ∧
      (newDone = none → updated.done = old.done) ∧
      (∀ b, newDone = some b → updated.done = b) ∧
      dictGet (update_todo token todo_id newText newDone todos).2 todo_id =
        some updated ∧
      (∀ k, k ≠ todo_id →
        dictGet (update_todo token todo_id newText newDone todos).2 k =
          dictGet todos k) := by
  have hu := update_todo_eq token todo_id newText newDone todos old
    (require_scope_eq_none hs) h
  refine ⟨⟨old.id, newText.getD old.text, newDone.getD old.done⟩, hu, rfl,
    ?_, ?_, ?_, ?_, ?_, ?_⟩
  · intro hn; subst hn; rfl
  · intro s hsome; subst hsome; rfl
  · intro hn; subst hn; rfl
  · intro b hsome; subst hsome; rfl
  · rw [hu]; exact dictGet_dictSet_self _ _ _
  · intro k hk; rw [hu]; exact dictGet_dictSet_ne _ _ _ _ hk

/-- Witness for C9: updating only the done flag of the stored buy milk
record. -/
theorem C9_partial_update_frame_witness :
    ("todo:write" ∈ (AccessToken.mk ["todo:write"]).scopes) ∧
    dictGet [("1", (⟨"1", "buy milk", false⟩ : Todo))] "1" =
      some ⟨"1", "buy milk", false⟩ ∧
    ∃ updated : Todo,
      update_todo ⟨["todo:write"]⟩ "1" none (some true)
          [("1", ⟨"1", "buy milk", false⟩)] =
        (ToolResult.todo updated,
          dictSet [("1", ⟨"1", "buy milk", false⟩)] "1" updated) ∧
      updated.id = "1" ∧
      ((none : Option String) = none → updated.text = "buy milk") ∧
      (∀ s, (none : Option String) = some s → updated.text = s) ∧
      ((some true : Option Bool) = none → updated.done = false) ∧
      (∀ b, (some true : Option Bool) = some b → updated.done = b) ∧
      dictGet (update_todo ⟨["todo:write"]⟩ "1" none (some true)
          [("1", ⟨"1", "buy milk", false⟩)]).2 "1" = some updated ∧
      (∀ k, k ≠ "1" →
        dictGet (update_todo ⟨["todo:write"]⟩ "1" none (some true)
            [("1", ⟨"1", "buy milk", false⟩)]).2 k =
          dictGet [("1", ⟨"1", "buy milk", false⟩)] k) :=
  ⟨by decide, by decide,
    C9_partial_update_frame ⟨["todo:write"]⟩ [("1", ⟨"1", "buy milk", false⟩)]
      "1" ⟨"1", "buy milk", false⟩ none (some true) (by decide) (by decide)⟩

/-- C10: in every dict state reachable from the empty dict by any
sequence of the four operations with any tokens, every stored value is a
record of exactly the three fields id, text and done whose id equals the
key it is stored under. -/
theorem C10_key_consistency (s : TodoMap) (hs : Reachable s) :
    ∀ p ∈ s, ∃ txt dn, p.2 = Todo.mk p.1 txt dn := by
  induction hs with
  | init => intro p hp; simp at hp
  | step hr hstep ih =>
    rename_i s0 s1
    cases hstep with
    | lists token =>
      intro p hp
      rw [list_todos_state] at hp
      exact ih p hp
    | creates token text =>
      intro p hp
      cases hg : _require_scope "todo:write" token with
      | some e =>
        rw [show (create_todo token text s0).2 = s0 by simp [create_todo, hg]] at hp
        exact ih p hp
      | none =>
        rw [create_todo_eq token text s0 hg] at hp
        rcases mem_dictSet hp with hq | hq
        · subst hq; exact ⟨text, false, rfl⟩
        · exact ih p hq
    | updates token todo_id text done =>
      intro p hp
      cases hg : _require_scope "todo:write" token with
      | some e =>
        rw [show (update_todo token todo_id text done s0).2 = s0 by
          simp [update_todo, hg]] at hp
        exact ih p hp
      | none =>
        cases h : dictGet s0 todo_id with
        | none =>
          rw [show (update_todo token todo_id text done s0).2 = s0 by
            simp [update_todo, hg, h]] at hp
          exact ih p hp
        | some old =>
          rw [update_todo_eq token todo_id text done s0 old hg h] at hp
          rcases mem_dictSet hp with hq | hq
          · obtain ⟨txt, dn, hold⟩ := ih (todo_id, old) (dictGet_mem h)
            have hold' : old = Todo.mk todo_id txt dn := hold
            subst hq
            exact ⟨text.getD old.text, done.getD old.done, by simp [hold']⟩
          · exact ih p hq
    | deletes token todo_id =>
      intro p hp
      cases hg : _require_scope "todo:write" token with
      | some e =>
        rw [show (delete_todo token todo_id s0).2 = s0 by
          simp [delete_todo, hg]] at hp
        exact ih p hp
      | none =>
        cases h : dictGet s0 todo_id with
        | none =>
          rw [show (delete_todo token todo_id s0).2 = s0 by
            simp [delete_todo, hg, h]] at hp
          exact ih p hp
        | some old =>
          rw [delete_todo_eq token todo_id s0 old hg h] at hp
          exact ih p (mem_dictPop hp)

/-- Witness for C10: the dict reached by one create from the empty dict
is reachable and satisfies the key-consistency invariant. -/
theorem C10_key_consistency_witness :
    Reachable [("1", (⟨"1", "buy milk", false⟩ : Todo))] ∧
    ∀ p ∈ [("1", (⟨"1", "buy milk", false⟩ : Todo))],
      ∃ txt dn, p.2 = Todo.mk p.1 txt dn := by
  have h1 : Reachable ((create_todo ⟨["todo:write"]⟩ "buy milk" []).2) :=
    Reachable.step Reachable.init (Step.creates ⟨["todo:write"]⟩ "buy milk" [])
  have he : (create_todo (⟨["todo:write"]⟩ : AccessToken) "buy milk" []).2 =
      [("1", (⟨"1", "buy milk", false⟩ : Todo))] := by decide
  rw [he] at h1
  exact ⟨h1, C10_key_consistency _ h1⟩

end TodoServer

namespace Gateway

/-- C1 fails on the code: line 42 of `main-minimal.py` indexes the split
at 0, so the middleware delegates the stripped text BEFORE the
`Bearer ` prefix — always the empty string on a header that passed the
prefix guard — and never the token substring after the prefix. At the
failing input, the header carrying the token abc123, the extraction
yields the empty string rather than abc123, and in consequence a
validator that accepts exactly the token abc123 (and rejects everything
else, in particular the empty string) is still answered with the
validation-failed 401. -/
theorem C1_token_extraction_bug :
    extractToken "Bearer abc123" = "" ∧
    ("" : String) ≠ "abc123" ∧
    auth_middleware
        (fun t => if t = "abc123" then ValidatorOutcome.ok true
          else ValidatorOutcome.ok false)
        ⟨"/mcp", some "Bearer abc123"⟩ =
      MwOutcome.resp validationFailedResponse := by
  decide

/-- C6: on a non-exempt path with a `Bearer `-prefixed authorization
header, whenever the validator call on the delegated token either
returns false or raises, the middleware answers the same 401 response
with the Token-validation-failed body and the challenge header. The two
failure causes appear as the two sides of the disjunctive hypothesis and
reach the identical response value, so they are indistinguishable to the
client. -/
theorem C6_validator_failure_normalization (path auth_header : String)
    (validator : String → ValidatorOutcome)
    (hpath : path ∉ EXEMPT_PATHS)
    (hb : pyStartsWith auth_header "Bearer " = true)
    (hv : validator (extractToken auth_header) = ValidatorOutcome.ok false ∨
      validator (extractToken auth_header) = ValidatorOutcome.exn) :
    auth_middleware validator ⟨path, some auth_header⟩ =
      MwOutcome.resp validationFailedResponse ∧
    validationFailedResponse.status = 401 ∧
    validationFailedResponse.body = "\x7b\"error\":\"Token validation failed\"\x7d" ∧
    validationFailedResponse.headers = WWW_HEADER := by
  refine ⟨?_, rfl, rfl, rfl⟩
  have hne : ¬ (auth_header = "" ∨ pyStartsWith auth_header "Bearer " = false) := by
    rintro (h1 | h1)
    · subst h1; exact absurd hb (by decide)
    · rw [hb] at h1; exact absurd h1 (by decide)
  rcases hv with hv | hv <;> simp [auth_middleware, hpath, hne, hv]

/-- Witness for C6: the non-exempt path and a Bearer header, with a
validator that always raises. -/
theorem C6_validator_failure_normalization_witness :
    (("/mcp" : String) ∉ EXEMPT_PATHS) ∧
    pyStartsWith "Bearer abc" "Bearer " = true ∧
    auth_middleware (fun _ => ValidatorOutcome.exn) ⟨"/mcp", some "Bearer abc"⟩ =
      MwOutcome.resp validationFailedResponse :=
  ⟨by decide, by decide,
    (C6_validator_failure_normalization "/mcp" "Bearer abc"
      (fun _ => ValidatorOutcome.exn) (by decide) (by decide) (Or.inr rfl)).1⟩

/-- C7: on a non-exempt path, a request whose authorization header is
absent — or present but not starting with `Bearer `, which covers the
empty header Python treats as falsy — is answered with the 401
Missing-Bearer-token response and the challenge header. The conclusion
holds for every validator whatsoever, so the response is reached without
consulting the validator, and it is a middleware response rather than a
forward to the downstream handler. -/
theorem C7_missing_credential_rejection (path : String) (auth : Option String)
    (validator : String → ValidatorOutcome)
    (hpath : path ∉ EXEMPT_PATHS)
    (hmiss : auth = none ∨
      ∃ h, auth = some h ∧ pyStartsWith h "Bearer " = false) :
    auth_middleware validator ⟨path, auth⟩ = MwOutcome.resp missingBearerResponse ∧
    missingBearerResponse.status = 401 ∧
    missingBearerResponse.body = "\x7b\"error\":\"Missing Bearer token\"\x7d" ∧
    missingBearerResponse.headers = WWW_HEADER := by
  refine ⟨?_, rfl, rfl, rfl⟩
  rcases hmiss with h | ⟨hh, rfl, hns⟩
  · subst h; simp [auth_middleware, hpath]
  · simp [auth_middleware, hpath, hns]

/-- Witness for C7: a request to a non-exempt path with no authorization
header, against a validator that would accept anything. -/
theorem C7_missing_credential_rejection_witness :
    (("/mcp" : String) ∉ EXEMPT_PATHS) ∧
    auth_middleware (fun _ => ValidatorOutcome.ok true) ⟨"/mcp", none⟩ =
      MwOutcome.resp missingBearerResponse :=
  ⟨by decide,
    (C7_missing_credential_rejection "/mcp" none (fun _ => ValidatorOutcome.ok true)
      (by decide) (Or.inl rfl)).1⟩

end Gateway
